import Mathlib

/-!
Shallow embedding of the `mobius-vacuum-energy-verification` scripts.

The repository consists of four standalone Python calculator scripts:
`MathProof.py`, `mobius_index_verifcation.py`, `ahss_quickcheck.py` and
`C_env_micro_script.py`.  Python floats are modelled as real numbers,
Python ints as integers, Python dicts as `Nat → Option Nat` lookup
functions (`none` models a `KeyError`), and expressions that can raise
as `Option`- or `Except`-valued functions.  Print statements and panel
label strings are omitted: they do not affect any computed value.
-/

/-- Errors that a Python arithmetic expression in these scripts can raise:
a `ValueError` from `math.log10` on a non-positive argument (a domain
error), and a `ZeroDivisionError` from `/` (a division error). -/
inductive CalcError where
  | domainError
  | divisionError
deriving DecidableEq

/-- The decade-index formula, identical in all three Möbius-index scripts
(`MathProof.py` line 21, `mobius_index_verifcation.py` line 75,
`ahss_quickcheck.py` line 20): `I10(m) = (2^m - 1) - m + 3`, computed on
Python integers, here on `ℤ` with a natural-number argument. -/
def decade_index (m : ℕ) : ℤ := (2 ^ m - 1) - m + 3

/-- The fixed diagonal panel list `[(5,0),(4,1),(3,2),(2,3)]` (the `p+q = 5`
diagonal) iterated by every variant of the rank computation. -/
def e2_panels : List (ℕ × ℕ) := [(5, 0), (4, 1), (3, 2), (2, 3)]

/-- The loop body of `compute_ahss_e2_ranks`
(`mobius_index_verifcation.py` lines 94-106, `MathProof.py` lines 28-33):
for each panel `(p, q)` look up the cohomology dimension at `p` and the
pin rank at `q` (a missing key raises `KeyError`, modelled by `none`),
multiply them, and collect the per-panel ranks together with their total. -/
def panelRanks (dims pins : ℕ → Option ℕ) : List (ℕ × ℕ) → Option (List ℕ × ℕ)
  | [] => some ([], 0)
  | (p, q) :: rest => do
    let h ← dims p
    let r ← pins q
    let (ranks, total) ← panelRanks dims pins rest
    pure (h * r :: ranks, h * r + total)

/-- The spec-level operation `computeBordismRankSum`: the rank-sum loop of
`compute_ahss_e2_ranks` with the two fixed mappings passed as explicit
arguments, run over the fixed panel list. -/
def computeBordismRankSum (dims pins : ℕ → Option ℕ) : Option (List ℕ × ℕ) :=
  panelRanks dims pins e2_panels

/-- The cohomology-dimension mapping `{2: 2, 3: 1, 4: 2, 5: 2}` shared by
all three Möbius-index scripts. -/
def specCohomologyDims : ℕ → Option ℕ
  | 2 => some 2
  | 3 => some 1
  | 4 => some 2
  | 5 => some 2
  | _ => none

/-- The pin-rank mapping `{0: 1, 1: 1, 2: 1, 3: 1}` shared by all three
Möbius-index scripts. -/
def specPinRanks : ℕ → Option ℕ
  | 0 => some 1
  | 1 => some 1
  | 2 => some 1
  | 3 => some 1
  | _ => none

namespace MathProof

/-- Dict `cohomology_dimensions` of `MathProof.py` line 17. -/
def cohomology_dimensions : ℕ → Option ℕ
  | 2 => some 2
  | 3 => some 1
  | 4 => some 2
  | 5 => some 2
  | _ => none

/-- Dict `pin_coefficients` of `MathProof.py` line 18. -/
def pin_coefficients : ℕ → Option ℕ
  | 0 => some 1
  | 1 => some 1
  | 2 => some 1
  | 3 => some 1
  | _ => none

/-- Method `compute_ahss_e2_ranks` of `MathProof.py` lines 23-35: the panel
loop over the fixed diagonal using this script's two dicts. -/
def compute_ahss_e2_ranks : Option (List ℕ × ℕ) :=
  panelRanks cohomology_dimensions pin_coefficients e2_panels

end MathProof

namespace MobiusVerification

/-- Constant `planck_density = 5.16e96` (`mobius_index_verifcation.py`
line 48). -/
noncomputable def planck_density : ℝ := 5.16e96

/-- Constant `observed_density = 5.83e-27` (`mobius_index_verifcation.py`
line 49). -/
noncomputable def observed_density : ℝ := 5.83e-27

/-- Dict `cohomology_dimensions` of `mobius_index_verifcation.py`
lines 52-57. -/
def cohomology_dimensions : ℕ → Option ℕ
  | 2 => some 2
  | 3 => some 1
  | 4 => some 2
  | 5 => some 2
  | _ => none

/-- Dict `pin_coefficients` of `mobius_index_verifcation.py` lines 59-64. -/
def pin_coefficients : ℕ → Option ℕ
  | 0 => some 1
  | 1 => some 1
  | 2 => some 1
  | 3 => some 1
  | _ => none

/-- Method `compute_ahss_e2_ranks` of `mobius_index_verifcation.py`
lines 77-108: the panel loop over the fixed diagonal using this script's
two dicts. -/
def compute_ahss_e2_ranks : Option (List ℕ × ℕ) :=
  panelRanks cohomology_dimensions pin_coefficients e2_panels

/-- Method `verify_physical_prediction` of `mobius_index_verifcation.py`
lines 110-124 (and `MathProof.py` lines 37-41): returns the triple
`(I10, predicted_density, agreement_decades)` where
`I10 = decade_index m`, `predicted_density = planck_density * 10^(-I10)`
and `agreement_decades = log10(observed_density / predicted_density)`.
The derived `accuracy_percent` display field is omitted. -/
noncomputable def verify_physical_prediction (m : ℕ) : ℤ × ℝ × ℝ :=
  (decade_index m,
   planck_density * (10 : ℝ) ^ (-decade_index m),
   Real.logb 10 (observed_density / (planck_density * (10 : ℝ) ^ (-decade_index m))))

/-- The `__main__` exit logic of `mobius_index_verifcation.py` lines
234-241 as a function of the outcome of `main()` (its returned agreement
value, or the exception that escaped it):
`sys.exit(0 if abs(agreement) < 0.1 else 1)` on a normal return and
`sys.exit(2)` on an uncaught exception. -/
noncomputable def exit_code : Except CalcError ℝ → ℕ
  | .ok agreement => if |agreement| < 0.1 then 0 else 1
  | .error _ => 2

end MobiusVerification

namespace Quickcheck

/-- Dict `cohomology_dims` of `ahss_quickcheck.py` lines 30-35. -/
def cohomology_dims : ℕ → Option ℕ
  | 2 => some 2
  | 3 => some 1
  | 4 => some 2
  | 5 => some 2
  | _ => none

/-- Dict `pin_ranks` of `ahss_quickcheck.py` line 49. -/
def pin_ranks : ℕ → Option ℕ
  | 0 => some 1
  | 1 => some 1
  | 2 => some 1
  | 3 => some 1
  | _ => none

/-- The per-panel ranks hardcoded in the `e2_panels` list of
`ahss_quickcheck.py` lines 56-61: each entry's fourth component is the
direct dict-access product `cohomology_dims[p] * pin_ranks[q]`. -/
def e2_ranks : Option (List ℕ) := do
  let a ← cohomology_dims 5
  let b ← pin_ranks 0
  let c ← cohomology_dims 4
  let d ← pin_ranks 1
  let e ← cohomology_dims 3
  let f ← pin_ranks 2
  let g ← cohomology_dims 2
  let h ← pin_ranks 3
  pure [a * b, c * d, e * f, g * h]

/-- The accumulation `total_e2_rank += rank` of `ahss_quickcheck.py`
lines 63-68: the sum of the hardcoded per-panel ranks. -/
def total_e2_rank : Option ℕ := e2_ranks.map List.sum

end Quickcheck

/-- Function `safe_ratio` of `C_env_micro_script.py` lines 116-117:
`float('nan') if abs(den) < 1e-30 else 0.5 * (num/den)`, with the NaN
sentinel modelled by `none`. -/
noncomputable def safe_ratio (num den : ℝ) : Option ℝ :=
  if |den| < 1e-30 then none else some (0.5 * (num / den))

/-- Function `A_coeffs_dirac` of `C_env_micro_script.py` lines 83-87:
`A0 = 2*vol` and `A2 = (1/6)*R*(2*vol) + (R/4)*(2*vol)`. -/
noncomputable def A_coeffs_dirac (vol R : ℝ) : ℝ × ℝ :=
  (2 * vol, 1 / 6 * R * (2 * vol) + R / 4 * (2 * vol))

/-- The spec-level operation `predictDensity`: the expression
`planck_density * (10 ** (-I10))` of `mobius_index_verifcation.py`
line 115 with the reference density and the decade index as arguments. -/
noncomputable def predictDensity (referenceDensity : ℝ) (I : ℤ) : ℝ :=
  referenceDensity * (10 : ℝ) ^ (-I)

/-- The spec-level operation `agreementInDecades`: the expression
`math.log10(observed_density / predicted_density)` of
`mobius_index_verifcation.py` line 116 with both densities as arguments,
together with its Python error behaviour: `observed / predicted` raises
`ZeroDivisionError` when `predicted = 0`, and `math.log10` raises a
`ValueError` (domain error) when its argument is not positive. -/
noncomputable def agreementInDecades (observed predicted : ℝ) : Except CalcError ℝ :=
  if predicted = 0 then .error .divisionError
  else if observed / predicted ≤ 0 then .error .domainError
  else .ok (Real.logb 10 (observed / predicted))

/-- Claim C2: `computeBordismRankSum` on the cohomology dimensions
`{2:2, 3:1, 4:2, 5:2}` and pin ranks `{0:1, 1:1, 2:1, 3:1}` over the fixed
panel list `[(5,0),(4,1),(3,2),(2,3)]` returns the per-panel rank sequence
`[2, 2, 1, 2]` and the total `7`. -/
theorem computeBordismRankSum_spec_inputs :
    computeBordismRankSum specCohomologyDims specPinRanks = some ([2, 2, 1, 2], 7) := rfl

/-- Claim C10: the three variants of the rank computation — the
dict-driven loop of `MathProof.py`, the dict-driven loop of
`mobius_index_verifcation.py`, and the hardcoded per-panel products of
`ahss_quickcheck.py` — produce identical per-panel ranks and the identical
total rank on the `p+q = 5` diagonal. -/
theorem rank_variants_agree :
    MathProof.compute_ahss_e2_ranks = MobiusVerification.compute_ahss_e2_ranks ∧
    MathProof.compute_ahss_e2_ranks.map Prod.fst = Quickcheck.e2_ranks ∧
    MathProof.compute_ahss_e2_ranks.map Prod.snd = Quickcheck.total_e2_rank :=
  ⟨rfl, rfl, rfl⟩

/-- Claim C4, counterexample: `decade_index` is not strictly increasing
from `m = 0`: `decade_index 0 = decade_index 1 = 3`. -/
theorem decade_index_not_strict_at_zero :
    decade_index 0 = 3 ∧ decade_index 1 = 3 ∧ ¬ decade_index 0 < decade_index 1 := by
  decide

/-- Claim C4, amended: `decade_index m = (2^m - 1) - m + 3` is strictly
increasing for `m ≥ 1` (it is only non-decreasing at `m = 0`, where
`decade_index 0 = decade_index 1 = 3`), and `decade_index 7 = 123`. -/
theorem decade_index_strictMono_from_one :
    (∀ m : ℕ, 1 ≤ m → decade_index m < decade_index (m + 1)) ∧ decade_index 7 = 123 := by
  constructor
  · intro m hm
    unfold decade_index
    have h2 : (2 : ℤ) ≤ 2 ^ m := by
      calc (2 : ℤ) = 2 ^ 1 := (pow_one 2).symm
        _ ≤ 2 ^ m := pow_le_pow_right₀ one_le_two hm
    have hsucc : (2 : ℤ) ^ (m + 1) = 2 ^ m * 2 := pow_succ 2 m
    push_cast
    linarith
  · decide

/-- Witness for the amended Claim C4 at `m = 1` and `m = 7`. -/
theorem decade_index_strict_witness :
    decade_index 1 < decade_index 2 ∧ decade_index 7 = 123 :=
  ⟨decade_index_strictMono_from_one.1 1 (by norm_num),
   decade_index_strictMono_from_one.2⟩

/-- Claim C3: for every pair of scalars `(n, d)`, `safe_ratio n d` returns
the undefined sentinel when `|d| < 1e-30`, and returns `0.5 * (n / d)`
otherwise (including for negative `n` and `d`); it never raises. -/
theorem safe_ratio_spec (n d : ℝ) :
    (|d| < 1e-30 → safe_ratio n d = none) ∧
    (¬ |d| < 1e-30 → safe_ratio n d = some (0.5 * (n / d))) := by
  constructor
  · intro h
    unfold safe_ratio
    rw [if_pos h]
  · intro h
    unfold safe_ratio
    rw [if_neg h]

/-- Witness for Claim C3 at the concrete inputs `(3, 0)` (tiny denominator)
and `(-3, -2)` (both negative). -/
theorem safe_ratio_witness :
    safe_ratio 3 0 = none ∧ safe_ratio (-3) (-2) = some (0.5 * ((-3) / (-2))) :=
  ⟨( safe_ratio_spec 3 0).1 (by rw [abs_zero]; norm_num),
   ( safe_ratio_spec (-3) (-2)).2 (by rw [abs_neg, abs_two]; norm_num)⟩

/-- Claim C7: for all volume `vol` and curvature `R`, `A_coeffs_dirac`
returns `A0 = 2 * vol` and `A2 = (R/6)(2 vol) + (R/4)(2 vol)` exactly,
with no error conditions. -/
theorem A_coeffs_dirac_spec (vol R : ℝ) :
    A_coeffs_dirac vol R = (2 * vol, R / 6 * (2 * vol) + R / 4 * (2 * vol)) := by
  unfold A_coeffs_dirac
  rw [Prod.mk.injEq]
  exact ⟨rfl, by ring⟩

/-- Claim C5, counterexample: with both arguments negative (here
`observed = predicted = -1`) the quotient is positive, so the computation
returns `log10 1 = 0` instead of raising a domain error. -/
theorem agreementInDecades_neg_neg :
    agreementInDecades (-1) (-1) = Except.ok 0 := by
  unfold agreementInDecades
  rw [if_neg (by norm_num : ¬ ((-1 : ℝ) = 0)), if_neg (by norm_num : ¬ ((-1 : ℝ) / (-1) ≤ 0))]
  rw [show ((-1 : ℝ) / (-1)) = 1 by norm_num, Real.logb_one]

/-- Claim C5, amended: `agreementInDecades observed predicted` returns
`log10 (observed / predicted)` whenever the quotient is positive
(including when both arguments are negative); it fails with a division
error when `predicted = 0`, and with a domain error when `predicted ≠ 0`
and the quotient `observed / predicted` is not positive. -/
theorem agreementInDecades_characterization (o p : ℝ) :
    (p = 0 → agreementInDecades o p = Except.error CalcError.divisionError) ∧
    (p ≠ 0 → o / p ≤ 0 → agreementInDecades o p = Except.error CalcError.domainError) ∧
    (0 < o / p → agreementInDecades o p = Except.ok (Real.logb 10 (o / p))) := by
  refine ⟨fun h => ?_, fun h1 h2 => ?_, fun h => ?_⟩
  · unfold agreementInDecades
    rw [if_pos h]
  · unfold agreementInDecades
    rw [if_neg h1, if_pos h2]
  · have hp : p ≠ 0 := by
      intro hp0
      rw [hp0, div_zero] at h
      exact lt_irrefl 0 h
    unfold agreementInDecades
    rw [if_neg hp, if_neg (not_le.mpr h)]

/-- Witness for the amended Claim C5 at concrete inputs covering all three
branches. -/
theorem agreementInDecades_witness :
    agreementInDecades 1 0 = Except.error CalcError.divisionError ∧
    agreementInDecades (-1) 1 = Except.error CalcError.domainError ∧
    agreementInDecades 10 1 = Except.ok (Real.logb 10 (10 / 1)) :=
  ⟨(agreementInDecades_characterization 1 0).1 rfl,
   (agreementInDecades_characterization (-1) 1).2.1 one_ne_zero (by norm_num),
   (agreementInDecades_characterization 10 1).2.2 (by norm_num)⟩

/-- Claim C6, counterexample: at an agreement value of exactly `0.1` the
magnitude does not exceed `0.1`, yet the exit code is `1`, not `0`: the
code tests `abs(agreement) < 0.1` strictly. -/
theorem exit_code_boundary :
    |(0.1 : ℝ)| ≤ 0.1 ∧ MobiusVerification.exit_code (Except.ok 0.1) = 1 := by
  constructor
  · rw [abs_of_pos (by norm_num : (0 : ℝ) < 0.1)]
  · simp only [MobiusVerification.exit_code]
    rw [if_neg]
    rw [abs_of_pos (by norm_num : (0 : ℝ) < 0.1)]
    exact lt_irrefl 0.1

/-- Claim C6, amended: the process exit code is `0` when the agreement
magnitude is strictly below `0.1` and no exception escapes, `1` when the
magnitude is at least `0.1`, and `2` when an exception propagates out of
`main`. -/
theorem exit_code_characterization (a : ℝ) (e : CalcError) :
    (|a| < 0.1 → MobiusVerification.exit_code (Except.ok a) = 0) ∧
    (0.1 ≤ |a| → MobiusVerification.exit_code (Except.ok a) = 1) ∧
    MobiusVerification.exit_code (Except.error e) = 2 := by
  refine ⟨fun h => ?_, fun h => ?_, rfl⟩
  · simp only [MobiusVerification.exit_code]
    rw [if_pos h]
  · simp only [MobiusVerification.exit_code]
    rw [if_neg (not_lt.mpr h)]

/-- Witness for the amended Claim C6 at concrete outcomes covering all
three branches. -/
theorem exit_code_witness :
    MobiusVerification.exit_code (Except.ok 0) = 0 ∧
    MobiusVerification.exit_code (Except.ok 1) = 1 ∧
    MobiusVerification.exit_code (Except.error CalcError.domainError) = 2 :=
  ⟨(exit_code_characterization 0 CalcError.domainError).1 (by rw [abs_zero]; norm_num),
   (exit_code_characterization 1 CalcError.domainError).2.1 (by rw [abs_one]; norm_num),
   (exit_code_characterization 0 CalcError.domainError).2.2⟩

/-- Claim C8: for every `m ≤ 50` and positive `observed` and `planck`,
`agreementInDecades observed (predictDensity planck (decade_index m))`
equals the decade offset obtained by direct substitution,
`log10 (observed / (planck * 10^(-decade_index m)))`. -/
theorem roundtrip_agreement (m : ℕ) (hm : m ≤ 50) (observed planck : ℝ)
    (ho : 0 < observed) (hp : 0 < planck) :
    agreementInDecades observed (predictDensity planck (decade_index m)) =
      Except.ok (Real.logb 10 (observed / (planck * (10 : ℝ) ^ (-decade_index m)))) := by
  have hpred : (0 : ℝ) < planck * (10 : ℝ) ^ (-decade_index m) :=
    mul_pos hp (zpow_pos (by norm_num) _)
  have hq : 0 < observed / (planck * (10 : ℝ) ^ (-decade_index m)) := div_pos ho hpred
  unfold agreementInDecades predictDensity
  rw [if_neg (ne_of_gt hpred), if_neg (not_le.mpr hq)]

/-- Witness for Claim C8 at `m = 7`, `observed = 1`, `planck = 1`. -/
theorem roundtrip_agreement_witness :
    agreementInDecades 1 (predictDensity 1 (decade_index 7)) =
      Except.ok (Real.logb 10 (1 / (1 * (10 : ℝ) ^ (-decade_index 7)))) :=
  roundtrip_agreement 7 (by norm_num) 1 1 one_pos one_pos

/-- Helper for Claim C9: processing one more panel succeeds exactly when
both of its lookups succeed and the remaining panels succeed. -/
theorem panelRanks_isSome_cons (dims pins : ℕ → Option ℕ) (p q : ℕ) (rest : List (ℕ × ℕ)) :
    (panelRanks dims pins ((p, q) :: rest)).isSome ↔
      ((dims p).isSome ∧ (pins q).isSome ∧ (panelRanks dims pins rest).isSome) := by
  cases hd : dims p
  · simp [panelRanks, hd]
  · cases hq : pins q
    · simp [panelRanks, hd, hq]
    · cases hr : panelRanks dims pins rest
      · simp [panelRanks, hd, hq, hr]
      · rename_i val
        obtain ⟨ranks, total⟩ := val
        simp [panelRanks, hd, hq, hr]

/-- Claim C9: `computeBordismRankSum` succeeds exactly when both supplied
mappings contain every key referenced by the fixed panel list
`[(5,0),(4,1),(3,2),(2,3)]`; a single absent `p` or `q` key makes it fail
with a lookup error (modelled by `none`), which is never recovered. -/
theorem computeBordismRankSum_missing_key (dims pins : ℕ → Option ℕ) :
    (computeBordismRankSum dims pins).isSome ↔
      ((dims 5).isSome ∧ (pins 0).isSome ∧ (dims 4).isSome ∧ (pins 1).isSome ∧
        (dims 3).isSome ∧ (pins 2).isSome ∧ (dims 2).isSome ∧ (pins 3).isSome) := by
  simp only [computeBordismRankSum, e2_panels, panelRanks_isSome_cons]
  simp [panelRanks]

/-- Claim C1: with the embedded inputs (cohomology dimensions
`{2:2, 3:1, 4:2, 5:2}`, pin ranks `{0:1, 1:1, 2:1, 3:1}`,
`planck_density = 5.16e96`, `observed_density = 5.83e-27`) the full
pipeline yields total bordism rank `7`, decade index `I10 = 123`,
predicted density exactly `5.16e96 * 10^(-123)` (which over the reals is
exactly `5.16e-27`), and agreement `log10 (5.83e-27 / predicted)` within
`0.001` of `0.053` and of magnitude below `0.1`. -/
theorem end_to_end_pipeline :
    MobiusVerification.compute_ahss_e2_ranks.map Prod.snd = some 7 ∧
    (MobiusVerification.verify_physical_prediction 7).1 = 123 ∧
    (MobiusVerification.verify_physical_prediction 7).2.1 = 5.16e96 * (10 : ℝ) ^ (-(123 : ℤ)) ∧
    (MobiusVerification.verify_physical_prediction 7).2.1 = 5.16e-27 ∧
    |(MobiusVerification.verify_physical_prediction 7).2.2 - 0.053| < 0.001 ∧
    |(MobiusVerification.verify_physical_prediction 7).2.2| < 0.1 := by
  have hI : decade_index 7 = 123 := by decide
  have hzp : (10 : ℝ) ^ (-(123 : ℤ)) = ((10 : ℝ) ^ (123 : ℕ))⁻¹ := by
    rw [zpow_neg]
    norm_num
  have hpred : MobiusVerification.planck_density * (10 : ℝ) ^ (-(123 : ℤ)) = 5.16e-27 := by
    unfold MobiusVerification.planck_density
    rw [hzp]
    norm_num
  have hratio :
      MobiusVerification.observed_density /
        (MobiusVerification.planck_density * (10 : ℝ) ^ (-(123 : ℤ))) = 583 / 516 := by
    unfold MobiusVerification.observed_density MobiusVerification.planck_density
    rw [hzp]
    norm_num
  have hval : (MobiusVerification.verify_physical_prediction 7).2.2 =
      Real.logb 10 ((583 : ℝ) / 516) := by
    simp only [MobiusVerification.verify_physical_prediction, hI]
    rw [hratio]
  have hU : Real.logb 10 ((583 : ℝ) / 516) < 27 / 500 := by
    have h500 : ((583 : ℝ) / 516) ^ (500 : ℕ) < 10 ^ (27 : ℕ) := by
      rw [div_pow, div_lt_iff₀ (by positivity)]
      norm_num
    have hlt := Real.logb_lt_logb (b := 10) (by norm_num)
      (by positivity : (0 : ℝ) < ((583 : ℝ) / 516) ^ (500 : ℕ)) h500
    rw [Real.logb_pow, Real.logb_pow, Real.logb_self_eq_one (by norm_num)] at hlt
    push_cast at hlt
    linarith
  have hL : (13 : ℝ) / 250 < Real.logb 10 ((583 : ℝ) / 516) := by
    have h250 : (10 : ℝ) ^ (13 : ℕ) < ((583 : ℝ) / 516) ^ (250 : ℕ) := by
      rw [div_pow, lt_div_iff₀ (by positivity)]
      norm_num
    have hlt := Real.logb_lt_logb (b := 10) (by norm_num)
      (by positivity : (0 : ℝ) < (10 : ℝ) ^ (13 : ℕ)) h250
    rw [Real.logb_pow, Real.logb_pow, Real.logb_self_eq_one (by norm_num)] at hlt
    push_cast at hlt
    linarith
  have h53 : (0.053 : ℝ) = 53 / 1000 := by norm_num
  have h1m : (0.001 : ℝ) = 1 / 1000 := by norm_num
  have h01 : (0.1 : ℝ) = 1 / 10 := by norm_num
  refine ⟨rfl, ?_, ?_, ?_, ?_, ?_⟩
  · simp only [MobiusVerification.verify_physical_prediction]
    exact hI
  · simp only [MobiusVerification.verify_physical_prediction]
    rw [hI]
    unfold MobiusVerification.planck_density
    rfl
  · simp only [MobiusVerification.verify_physical_prediction]
    rw [hI]
    exact hpred
  · rw [hval, abs_lt, h53, h1m]
    constructor <;> linarith
  · rw [hval, abs_lt, h01]
    constructor <;> linarith
